import Mathlib

/-!
Shallow embedding of the calcCoin HTTP service (app.js, plus the older
static-table revision of the same file) and proofs about it.

JavaScript numbers are modelled by exact rationals (ℚ).  `parseFloat`
results that may be `NaN` are modelled as `Option ℚ` (`none` = NaN).
Values flowing out of upstream JSON, which in JS may be `undefined`,
`NaN` or `Infinity`, are modelled by the `JsVal` type below.
-/

-- ---- Fee config (app.js lines 9-12; identical in the older revision) ----

def COMMISSION_RATE : ℚ := 0.03

def PLATFORM_FEE : ℚ := 0.99

def GST_RATE : ℚ := 0.09

def MIN_PRINCIPAL : ℚ := 10

/-- The `data` object returned by a successful `/api/calc` response,
field for field (app.js lines 141-156). -/
structure FeeQuote where
  principal : ℚ
  marketValue : ℚ
  commissionRate : ℚ
  commissionAmount : ℚ
  platformFee : ℚ
  gstAmount : ℚ
  totalFixedFee : ℚ
  amountForCrypto : ℚ
  coins : ℚ
  totalCharged : ℚ
  minPrincipal : ℚ
deriving DecidableEq

/-- Outcome of the `/api/calc` handler: a 400 response with a message, or a
200 response carrying a `FeeQuote`. -/
inductive CalcResponse where
  | badRequest (message : String)
  | ok (q : FeeQuote)
deriving DecidableEq

/-- The `/api/calc` handler body (app.js lines 107-157).  The two parsed
inputs are `Option ℚ`: `none` models a `parseFloat` result of `NaN`. -/
def computeFee (principal marketValue : Option ℚ) : CalcResponse :=
  match principal, marketValue with
  | some P, some MV =>
    if P ≤ 0 ∨ MV ≤ 0 then
      .badRequest "Please enter valid positive numbers."
    else if P < MIN_PRINCIPAL then
      -- `MIN_PRINCIPAL.toFixed(2)` renders the constant 10 as "10.00"
      .badRequest "Minimum principal is 10.00."
    else
      let gstAmount := PLATFORM_FEE * GST_RATE
      let totalFixedFee := PLATFORM_FEE + gstAmount
      let commissionAmount := P * COMMISSION_RATE
      let amountForCrypto := P - commissionAmount - totalFixedFee
      if amountForCrypto ≤ 0 then
        .badRequest "Fees are higher than the principal. Increase the principal amount."
      else
        let coins := amountForCrypto / MV
        let totalCharged := P + commissionAmount
        .ok { principal := P, marketValue := MV,
              commissionRate := COMMISSION_RATE,
              commissionAmount := commissionAmount,
              platformFee := PLATFORM_FEE,
              gstAmount := gstAmount,
              totalFixedFee := totalFixedFee,
              amountForCrypto := amountForCrypto,
              coins := coins,
              totalCharged := totalCharged,
              minPrincipal := MIN_PRINCIPAL }
  | _, _ => .badRequest "Please enter valid positive numbers."

-- ---- JS value model for upstream JSON fields ----

/-- A JavaScript value as it can appear in an upstream price field or as the
result of JS arithmetic on one: a finite number, `NaN`, `Infinity`, or
`undefined` (covering a missing field and also a non-numeric field, which
the code only ever inspects through `typeof x !== "number"`). -/
inductive JsVal where
  | num (q : ℚ)
  | nan
  | inf
  | undef
deriving DecidableEq

/-- JS `1 / x`: `1/0 = Infinity`, `1/Infinity = 0`, `1/NaN = NaN`,
`1/undefined = NaN`. -/
def jsRecip : JsVal → JsVal
  | .num q => if q = 0 then .inf else .num (1 / q)
  | .nan => .nan
  | .inf => .num 0
  | .undef => .nan

/-- JS `a * x` for a finite positive `a` (the convert handler validates
`amt > 0` before multiplying): `a * NaN = NaN`, `a * undefined = NaN`,
`a * Infinity = Infinity`. -/
def jsMul (a : ℚ) : JsVal → JsVal
  | .num q => .num (a * q)
  | .nan => .nan
  | .inf => .inf
  | .undef => .nan

/-- The check `typeof x === "number" && !isNaN(x)` (negation of the guard at
app.js line 89).  `Infinity` has `typeof` "number" and is not `NaN`, so it
passes. -/
def jsIsNumberNotNaN : JsVal → Bool
  | .num _ => true
  | .inf => true
  | _ => false

/-- JS `String.prototype.toUpperCase` restricted to ASCII, as used on the
currency codes (app.js lines 47-48). -/
def upStr (s : String) : String :=
  String.mk (s.data.map Char.toUpper)

-- ---- Upstream FioogAPI behaviour ----

/-- One fixed behaviour of the upstream FioogAPI: for each endpoint the code
can hit, whether the HTTP response is 2xx (`res.ok`) and what the relevant
price field of its JSON body holds.  `fxBtnSgd` models
`data.pairs?.["BTN/SGD"]?.price` of `GET /fx` (`undef` when any step of that
optional chain is absent). -/
structure Upstream where
  usdBtnOk : Bool
  usdBtnPrice : JsVal
  usdSgdOk : Bool
  usdSgdPrice : JsVal
  fxOk : Bool
  fxBtnSgd : JsVal
deriving DecidableEq

/-- `getFxRateFromFioog` (app.js lines 46-102).  The first component is the
returned JS value or the thrown error message; the second counts the
upstream `fetch` calls issued. -/
def getFxRateFromFioog (u : Upstream) (fr toC : String) : Except String JsVal × Nat :=
  let F := upStr fr
  let T := upStr toC
  if F = T then (.ok (.num 1), 0)
  else if F = "USD" ∧ T = "BTN" then
    if u.usdBtnOk then (.ok u.usdBtnPrice, 1)
    else (.error "FioogAPI error for USD-BTN", 1)
  else if F = "USD" ∧ T = "SGD" then
    if u.usdSgdOk then (.ok u.usdSgdPrice, 1)
    else (.error "FioogAPI error for USD-SGD", 1)
  else if F = "BTN" ∧ T = "USD" then
    if u.usdBtnOk then (.ok (jsRecip u.usdBtnPrice), 1)
    else (.error "FioogAPI error for USD-BTN", 1)
  else if F = "SGD" ∧ T = "USD" then
    if u.usdSgdOk then (.ok (jsRecip u.usdSgdPrice), 1)
    else (.error "FioogAPI error for USD-SGD", 1)
  else if (F = "BTN" ∧ T = "SGD") ∨ (F = "SGD" ∧ T = "BTN") then
    if u.fxOk then
      if jsIsNumberNotNaN u.fxBtnSgd then
        if F = "BTN" ∧ T = "SGD" then (.ok u.fxBtnSgd, 1)
        else (.ok (jsRecip u.fxBtnSgd), 1)
      else (.error "BTN/SGD rate missing in /fx", 1)
    else (.error "FioogAPI error for /fx", 1)
  else
    (.error ("FX pair " ++ fr ++ "/" ++ toC ++ " not supported by FioogAPI"), 0)

-- ---- /api/convert handlers ----

/-- Outcome of a `/api/convert` request: an error response with HTTP status,
message and optional `error` detail, or a 200 response echoing the request
with the converted amount and rate. -/
inductive ConvResp where
  | fail (status : Nat) (message : String) (errorDetail : Option String)
  | ok (fr toC : String) (amount : ℚ) (converted rate : JsVal)
deriving DecidableEq

/-- The `/api/convert` handler of the current app.js (lines 162-201).
`fr`/`toC` are `Option String`: `none` models a falsy `from`/`to` field
(missing or empty).  Any error thrown by `getFxRateFromFioog` is caught and
turned into a 500 whose `error` field carries the thrown message. -/
def convertFioog (u : Upstream) (fr toC : Option String) (amount : Option ℚ) : ConvResp :=
  match amount with
  | none => .fail 400 "Please enter a valid amount." none
  | some amt =>
    if amt ≤ 0 then .fail 400 "Please enter a valid amount." none
    else
      match fr, toC with
      | some f, some t =>
        match getFxRateFromFioog u f t with
        | (.ok rate, _) => .ok f t amt (jsMul amt rate) rate
        | (.error e, _) =>
          .fail 500 "Failed to fetch live FX rate from FioogAPI." (some e)
      | _, _ =>
        .fail 400 "Both \x27from\x27 and \x27to\x27 currencies are required." none

/-- The static FX table of the older app.js revision (its lines 14-18). -/
def FX_RATES (c : String) : Option ℚ :=
  if c = "SGD" then some 1
  else if c = "USD" then some 0.75
  else if c = "BTN" then some 61
  else none

/-- The `/api/convert` handler of the older app.js revision (its lines
77-108).  The source tests `!FX_RATES[from]` (truthiness); no stored rate is
0, so presence in the table is equivalent. -/
def convertStatic (fr toC : String) (amount : Option ℚ) : ConvResp :=
  match amount with
  | none => .fail 400 "Please enter a valid amount." none
  | some amt =>
    if amt ≤ 0 then .fail 400 "Please enter a valid amount." none
    else
      match FX_RATES fr, FX_RATES toC with
      | some rf, some rt =>
        .ok fr toC amt (.num (amt / rf * rt)) (.num (rt / rf))
      | _, _ => .fail 400 "Unsupported currency. Use SGD, USD or BTN." none

-- ---- /api/coins/latest ----

/-- The coin table (app.js lines 25-30): friendly symbol paired with its
CoinGecko identifier, in source order. -/
def COINS : List (String × String) :=
  [("usdt", "tether"), ("eth", "ethereum"), ("usdc", "usd-coin"), ("sol", "solana")]

/-- The per-coin price object of the upstream payload; each quote-currency
field may itself be absent. -/
structure CoinData where
  usd : Option ℚ
  sgd : Option ℚ
deriving DecidableEq

/-- The reshaping loop of the `/api/coins/latest` handler (app.js lines
270-279): `raw` is the identifier-keyed upstream body (`none` = identifier
absent, which is the falsy `coinData` case); symbols whose identifier is
absent are skipped. -/
def reshapeCoins (raw : String → Option CoinData) : List (String × CoinData) :=
  COINS.filterMap fun p =>
    match raw p.2 with
    | some d => some (p.1, { usd := d.usd, sgd := d.sgd })
    | none => none

-- ---- Sample inputs used in witnesses ----

/-- An upstream behaviour where every endpoint answers 2xx with a finite
numeric price. -/
def sampleUpstream : Upstream :=
  { usdBtnOk := true, usdBtnPrice := .num 85,
    usdSgdOk := true, usdSgdPrice := .num (27/20),
    fxOk := true, fxBtnSgd := .num (63/4000) }

/-- An upstream behaviour where both `/quote` endpoints answer 2xx but their
JSON bodies lack the `price` field, and `/fx` answers 2xx with the
`BTN/SGD` entry absent. -/
def missingPriceUpstream : Upstream :=
  { usdBtnOk := true, usdBtnPrice := .undef,
    usdSgdOk := true, usdSgdPrice := .undef,
    fxOk := true, fxBtnSgd := .undef }

/-- An upstream coin-price payload with the identifier "tether" absent and
the other three identifiers present. -/
def sampleRaw (i : String) : Option CoinData :=
  if i = "ethereum" then some { usd := some 2000, sgd := some 2700 }
  else if i = "usd-coin" then some { usd := some 1, sgd := some (27/20) }
  else if i = "solana" then some { usd := some 150, sgd := some 200 }
  else none

/-- An upstream behaviour where every price field is `NaN`. -/
def nanPriceUpstream : Upstream :=
  { usdBtnOk := true, usdBtnPrice := .nan,
    usdSgdOk := true, usdSgdPrice := .nan,
    fxOk := true, fxBtnSgd := .nan }

/-- The pairs for which the if-chain of `getFxRateFromFioog` finds a
decomposition (identity, pivot-direct, or cross), on already upper-cased
codes. -/
def supportedUpperPair (F T : String) : Prop :=
  F = T ∨ (F = "USD" ∧ T = "BTN") ∨ (F = "USD" ∧ T = "SGD") ∨
    (F = "BTN" ∧ T = "USD") ∨ (F = "SGD" ∧ T = "USD") ∨
    (F = "BTN" ∧ T = "SGD") ∨ (F = "SGD" ∧ T = "BTN")

instance (F T : String) : Decidable (supportedUpperPair F T) := by
  unfold supportedUpperPair
  infer_instance

-- ---- Helper lemmas: /api/calc ----

/-- With the default constants, a principal at or above the minimum leaves a
strictly positive net amount. -/
lemma net_pos_of_min (P : ℚ) (hmin : MIN_PRINCIPAL ≤ P) :
    0 < P - P * COMMISSION_RATE - (PLATFORM_FEE + PLATFORM_FEE * GST_RATE) := by
  rw [MIN_PRINCIPAL] at hmin
  rw [COMMISSION_RATE, PLATFORM_FEE, GST_RATE]
  norm_num
  linarith

/-- Evaluation of the `/api/calc` handler on any input passing all three
validation checks. -/
lemma computeFee_eq_ok (P MV : ℚ) (hP : 0 < P) (hMV : 0 < MV)
    (hmin : MIN_PRINCIPAL ≤ P)
    (hnet : 0 < P - P * COMMISSION_RATE - (PLATFORM_FEE + PLATFORM_FEE * GST_RATE)) :
    computeFee (some P) (some MV) = CalcResponse.ok
      { principal := P, marketValue := MV,
        commissionRate := COMMISSION_RATE,
        commissionAmount := P * COMMISSION_RATE,
        platformFee := PLATFORM_FEE,
        gstAmount := PLATFORM_FEE * GST_RATE,
        totalFixedFee := PLATFORM_FEE + PLATFORM_FEE * GST_RATE,
        amountForCrypto := P - P * COMMISSION_RATE - (PLATFORM_FEE + PLATFORM_FEE * GST_RATE),
        coins := (P - P * COMMISSION_RATE - (PLATFORM_FEE + PLATFORM_FEE * GST_RATE)) / MV,
        totalCharged := P + P * COMMISSION_RATE,
        minPrincipal := MIN_PRINCIPAL } := by
  have h1 : ¬(P ≤ 0 ∨ MV ≤ 0) := by push_neg; exact ⟨hP, hMV⟩
  have h2 : ¬(P < MIN_PRINCIPAL) := not_lt.mpr hmin
  have h3 : ¬(P - P * COMMISSION_RATE - (PLATFORM_FEE + PLATFORM_FEE * GST_RATE) ≤ 0) :=
    not_le.mpr hnet
  simp only [computeFee]
  rw [if_neg h1, if_neg h2, if_neg h3]

-- ---- Helper lemmas: branch characterizations of getFxRateFromFioog ----

/-- Identity branch (app.js line 50). -/
lemma getFx_id (u : Upstream) (fr toC : String) (h : upStr fr = upStr toC) :
    getFxRateFromFioog u fr toC = (.ok (.num 1), 0) := by
  simp [getFxRateFromFioog, h]

/-- USD→BTN branch (app.js lines 53-58). -/
lemma getFx_usd_btn (u : Upstream) (fr toC : String)
    (hF : upStr fr = "USD") (hT : upStr toC = "BTN") :
    getFxRateFromFioog u fr toC =
      if u.usdBtnOk then (.ok u.usdBtnPrice, 1)
      else (.error "FioogAPI error for USD-BTN", 1) := by
  simp [getFxRateFromFioog, hF, hT, show ("USD" : String) ≠ "BTN" by decide]

/-- USD→SGD branch (app.js lines 60-65). -/
lemma getFx_usd_sgd (u : Upstream) (fr toC : String)
    (hF : upStr fr = "USD") (hT : upStr toC = "SGD") :
    getFxRateFromFioog u fr toC =
      if u.usdSgdOk then (.ok u.usdSgdPrice, 1)
      else (.error "FioogAPI error for USD-SGD", 1) := by
  simp [getFxRateFromFioog, hF, hT, show ("USD" : String) ≠ "SGD" by decide,
    show ("SGD" : String) ≠ "BTN" by decide]

/-- BTN→USD branch (app.js lines 68-73). -/
lemma getFx_btn_usd (u : Upstream) (fr toC : String)
    (hF : upStr fr = "BTN") (hT : upStr toC = "USD") :
    getFxRateFromFioog u fr toC =
      if u.usdBtnOk then (.ok (jsRecip u.usdBtnPrice), 1)
      else (.error "FioogAPI error for USD-BTN", 1) := by
  simp [getFxRateFromFioog, hF, hT, show ("BTN" : String) ≠ "USD" by decide,
    show ("USD" : String) ≠ "BTN" by decide, show ("USD" : String) ≠ "SGD" by decide]

/-- SGD→USD branch (app.js lines 75-80). -/
lemma getFx_sgd_usd (u : Upstream) (fr toC : String)
    (hF : upStr fr = "SGD") (hT : upStr toC = "USD") :
    getFxRateFromFioog u fr toC =
      if u.usdSgdOk then (.ok (jsRecip u.usdSgdPrice), 1)
      else (.error "FioogAPI error for USD-SGD", 1) := by
  simp [getFxRateFromFioog, hF, hT, show ("SGD" : String) ≠ "USD" by decide,
    show ("USD" : String) ≠ "BTN" by decide, show ("USD" : String) ≠ "SGD" by decide]

/-- BTN→SGD side of the cross branch (app.js lines 83-94). -/
lemma getFx_btn_sgd (u : Upstream) (fr toC : String)
    (hF : upStr fr = "BTN") (hT : upStr toC = "SGD") :
    getFxRateFromFioog u fr toC =
      if u.fxOk then
        if jsIsNumberNotNaN u.fxBtnSgd then (.ok u.fxBtnSgd, 1)
        else (.error "BTN/SGD rate missing in /fx", 1)
      else (.error "FioogAPI error for /fx", 1) := by
  simp [getFxRateFromFioog, hF, hT, show ("BTN" : String) ≠ "SGD" by decide,
    show ("BTN" : String) ≠ "USD" by decide, show ("SGD" : String) ≠ "BTN" by decide]

/-- SGD→BTN side of the cross branch (app.js lines 83-97). -/
lemma getFx_sgd_btn (u : Upstream) (fr toC : String)
    (hF : upStr fr = "SGD") (hT : upStr toC = "BTN") :
    getFxRateFromFioog u fr toC =
      if u.fxOk then
        if jsIsNumberNotNaN u.fxBtnSgd then (.ok (jsRecip u.fxBtnSgd), 1)
        else (.error "BTN/SGD rate missing in /fx", 1)
      else (.error "FioogAPI error for /fx", 1) := by
  simp [getFxRateFromFioog, hF, hT, show ("SGD" : String) ≠ "BTN" by decide,
    show ("SGD" : String) ≠ "USD" by decide, show ("BTN" : String) ≠ "SGD" by decide,
    show ("BTN" : String) ≠ "USD" by decide]

/-- Fall-through branch (app.js line 101): no decomposition matched. -/
lemma getFx_unsupported (u : Upstream) (fr toC : String)
    (h0 : upStr fr ≠ upStr toC)
    (h1 : ¬(upStr fr = "USD" ∧ upStr toC = "BTN"))
    (h2 : ¬(upStr fr = "USD" ∧ upStr toC = "SGD"))
    (h3 : ¬(upStr fr = "BTN" ∧ upStr toC = "USD"))
    (h4 : ¬(upStr fr = "SGD" ∧ upStr toC = "USD"))
    (h5 : ¬((upStr fr = "BTN" ∧ upStr toC = "SGD") ∨ (upStr fr = "SGD" ∧ upStr toC = "BTN"))) :
    getFxRateFromFioog u fr toC =
      (.error ("FX pair " ++ fr ++ "/" ++ toC ++ " not supported by FioogAPI"), 0) := by
  simp only [getFxRateFromFioog]
  rw [if_neg h0, if_neg h1, if_neg h2, if_neg h3, if_neg h4, if_neg h5]

/-- No two entries of the coin table share a symbol. -/
lemma COINS_symbol_unique (p q : String × String) (hp : p ∈ COINS) (hq : q ∈ COINS) :
    p.1 = q.1 → p.2 = q.2 := by
  fin_cases hp <;> fin_cases hq <;> intro h <;> first
  | rfl
  | exact absurd h (by decide)

-- ---- Claim theorems ----

/-- C1: for every principal P and marketValue M passing validation (both
parse, both strictly positive, P at or above the minimum, net amount
positive), the /api/calc handler returns a quote with
gstAmount = platformFee × gstRate, totalFixedFee = platformFee + gstAmount,
commissionAmount = P × commissionRate, net = P − commissionAmount −
totalFixedFee, unitsPurchased = net / M, and totalCharged =
P + commissionAmount. -/
theorem calc_formula_correct (P MV : ℚ) (hP : 0 < P) (hMV : 0 < MV)
    (hmin : MIN_PRINCIPAL ≤ P)
    (hnet : 0 < P - P * COMMISSION_RATE - (PLATFORM_FEE + PLATFORM_FEE * GST_RATE)) :
    ∃ q : FeeQuote, computeFee (some P) (some MV) = CalcResponse.ok q ∧
      q.gstAmount = q.platformFee * GST_RATE ∧
      q.totalFixedFee = q.platformFee + q.gstAmount ∧
      q.commissionAmount = P * COMMISSION_RATE ∧
      q.amountForCrypto = P - q.commissionAmount - q.totalFixedFee ∧
      q.coins = q.amountForCrypto / MV ∧
      q.totalCharged = P + q.commissionAmount :=
  ⟨_, computeFee_eq_ok P MV hP hMV hmin hnet, rfl, rfl, rfl, rfl, rfl, rfl⟩

/-- Witness for C1 at P = 10, M = 100. -/
theorem calc_formula_correct_witness :
    (0 < (10 : ℚ)) ∧ (0 < (100 : ℚ)) ∧ MIN_PRINCIPAL ≤ (10 : ℚ) ∧
    (0 < (10 : ℚ) - 10 * COMMISSION_RATE - (PLATFORM_FEE + PLATFORM_FEE * GST_RATE)) ∧
    (∃ q : FeeQuote, computeFee (some 10) (some 100) = CalcResponse.ok q ∧
      q.gstAmount = q.platformFee * GST_RATE ∧
      q.totalFixedFee = q.platformFee + q.gstAmount ∧
      q.commissionAmount = 10 * COMMISSION_RATE ∧
      q.amountForCrypto = 10 - q.commissionAmount - q.totalFixedFee ∧
      q.coins = q.amountForCrypto / 100 ∧
      q.totalCharged = 10 + q.commissionAmount) :=
  ⟨by norm_num, by norm_num, by norm_num [MIN_PRINCIPAL],
    by norm_num [COMMISSION_RATE, PLATFORM_FEE, GST_RATE],
    calc_formula_correct 10 100 (by norm_num) (by norm_num) (by norm_num [MIN_PRINCIPAL])
      (by norm_num [COMMISSION_RATE, PLATFORM_FEE, GST_RATE])⟩

/-- C2: the claim says an unsupported from/to pair on /api/convert yields a
400 naming the supported set.  The current handler instead catches the
UnsupportedPairError and answers 500 with a generic upstream-failure
message (for any upstream behaviour); the older static-table revision of
the handler answers the specified 400. -/
theorem convert_unsupported_pair_returns_500 (u : Upstream) :
    convertFioog u (some "EUR") (some "USD") (some 5) =
      ConvResp.fail 500 "Failed to fetch live FX rate from FioogAPI."
        (some "FX pair EUR/USD not supported by FioogAPI") ∧
    convertStatic "EUR" "USD" (some 5) =
      ConvResp.fail 400 "Unsupported currency. Use SGD, USD or BTN." none := by
  have hg : getFxRateFromFioog u "EUR" "USD" =
      (.error "FX pair EUR/USD not supported by FioogAPI", 0) := by
    rw [getFx_unsupported _ _ _ (by decide) (by decide) (by decide) (by decide)
      (by decide) (by decide)]
    rfl
  constructor
  · norm_num [convertFioog, hg]
  · norm_num [convertStatic, FX_RATES, show ("EUR" : String) ≠ "SGD" by decide,
      show ("EUR" : String) ≠ "USD" by decide, show ("EUR" : String) ≠ "BTN" by decide]

/-- C3: the claim says a missing / non-numeric / NaN upstream price field
always becomes an UpstreamError.  The direct USD branches return
`data.price` unvalidated: a missing field comes back as `ok undefined` and
a NaN field as `ok NaN` — only the cross branch raises the error the claim
(and the spec) require. -/
theorem getFx_unvalidated_direct_price :
    getFxRateFromFioog missingPriceUpstream "USD" "BTN" = (Except.ok JsVal.undef, 1) ∧
    getFxRateFromFioog missingPriceUpstream "USD" "SGD" = (Except.ok JsVal.undef, 1) ∧
    getFxRateFromFioog nanPriceUpstream "USD" "BTN" = (Except.ok JsVal.nan, 1) ∧
    getFxRateFromFioog missingPriceUpstream "BTN" "SGD" =
      (Except.error "BTN/SGD rate missing in /fx", 1) ∧
    getFxRateFromFioog nanPriceUpstream "BTN" "SGD" =
      (Except.error "BTN/SGD rate missing in /fx", 1) := by
  refine ⟨?_, ?_, ?_, ?_, ?_⟩
  · rw [getFx_usd_btn _ _ _ (by decide) (by decide)]
    simp [missingPriceUpstream]
  · rw [getFx_usd_sgd _ _ _ (by decide) (by decide)]
    simp [missingPriceUpstream]
  · rw [getFx_usd_btn _ _ _ (by decide) (by decide)]
    simp [nanPriceUpstream]
  · rw [getFx_btn_sgd _ _ _ (by decide) (by decide)]
    simp [missingPriceUpstream, jsIsNumberNotNaN]
  · rw [getFx_btn_sgd _ _ _ (by decide) (by decide)]
    simp [nanPriceUpstream, jsIsNumberNotNaN]

/-- C4 counterexample: at principal 1.05 (below the minimum of 10) the
handler answers the BelowMinimum message, not the FeesExceedPrincipal one
the claim expects. -/
theorem calc_p105_counterexample :
    computeFee (some 1.05) (some 100) = CalcResponse.badRequest "Minimum principal is 10.00." ∧
    computeFee (some 1.05) (some 100) ≠
      CalcResponse.badRequest "Fees are higher than the principal. Increase the principal amount." := by
  have h : computeFee (some 1.05) (some 100) =
      CalcResponse.badRequest "Minimum principal is 10.00." := by
    norm_num [computeFee, MIN_PRINCIPAL]
  refine ⟨h, ?_⟩
  rw [h]
  decide

/-- C4 (amended): for principal 1.05 and any valid marketValue the handler
returns the BelowMinimum 400 (the minimum check precedes the fee check),
and no quote — hence no division — is ever produced. -/
theorem calc_p105_below_minimum (MV : ℚ) (hMV : 0 < MV) :
    computeFee (some 1.05) (some MV) = CalcResponse.badRequest "Minimum principal is 10.00." ∧
    ∀ q : FeeQuote, computeFee (some 1.05) (some MV) ≠ CalcResponse.ok q := by
  have h : computeFee (some 1.05) (some MV) =
      CalcResponse.badRequest "Minimum principal is 10.00." := by
    have h1 : ¬((1.05 : ℚ) ≤ 0 ∨ MV ≤ 0) := by
      push_neg
      exact ⟨by norm_num, hMV⟩
    simp only [computeFee]
    rw [if_neg h1, if_pos (by norm_num [MIN_PRINCIPAL])]
  exact ⟨h, fun q hq => by rw [h] at hq; exact CalcResponse.noConfusion hq⟩

/-- Witness for the amended C4 at marketValue 100. -/
theorem calc_p105_below_minimum_witness :
    (0 < (100 : ℚ)) ∧
    (computeFee (some 1.05) (some 100) = CalcResponse.badRequest "Minimum principal is 10.00." ∧
      ∀ q : FeeQuote, computeFee (some 1.05) (some 100) ≠ CalcResponse.ok q) :=
  ⟨by norm_num, calc_p105_below_minimum 100 (by norm_num)⟩

/-- C5: for every currency code X (supported ones included) and every
upstream behaviour, getRate(X, X) returns 1 and issues zero upstream
calls. -/
theorem getFx_identity_no_upstream_call (u : Upstream) (X : String) :
    getFxRateFromFioog u X X = (Except.ok (JsVal.num 1), 0) :=
  getFx_id u X X rfl

/-- C6: when both directions of a pivot-direct pair are served from the
same upstream quote q ≠ 0, the two rates are q and 1/q, so their product
is exactly 1 (the floating "≈ 1" sharpens to equality in the exact
model); this holds for both non-pivot currencies BTN and SGD. -/
theorem getFx_pivot_roundtrip (u : Upstream) (qb qs : ℚ)
    (hbOk : u.usdBtnOk = true) (hb : u.usdBtnPrice = JsVal.num qb) (hb0 : qb ≠ 0)
    (hsOk : u.usdSgdOk = true) (hs : u.usdSgdPrice = JsVal.num qs) (hs0 : qs ≠ 0) :
    ∃ rb rb' rs rs' : ℚ,
      getFxRateFromFioog u "USD" "BTN" = (Except.ok (JsVal.num rb), 1) ∧
      getFxRateFromFioog u "BTN" "USD" = (Except.ok (JsVal.num rb'), 1) ∧
      rb * rb' = 1 ∧
      getFxRateFromFioog u "USD" "SGD" = (Except.ok (JsVal.num rs), 1) ∧
      getFxRateFromFioog u "SGD" "USD" = (Except.ok (JsVal.num rs'), 1) ∧
      rs * rs' = 1 := by
  refine ⟨qb, 1 / qb, qs, 1 / qs, ?_, ?_, ?_, ?_, ?_, ?_⟩
  · rw [getFx_usd_btn u "USD" "BTN" (by decide) (by decide), if_pos hbOk, hb]
  · rw [getFx_btn_usd u "BTN" "USD" (by decide) (by decide), if_pos hbOk, hb]
    simp [jsRecip, hb0]
  · field_simp
  · rw [getFx_usd_sgd u "USD" "SGD" (by decide) (by decide), if_pos hsOk, hs]
  · rw [getFx_sgd_usd u "SGD" "USD" (by decide) (by decide), if_pos hsOk, hs]
    simp [jsRecip, hs0]
  · field_simp

/-- Witness for C6 with quotes 85 BTN and 1.35 SGD per USD. -/
theorem getFx_pivot_roundtrip_witness :
    sampleUpstream.usdBtnOk = true ∧ sampleUpstream.usdBtnPrice = JsVal.num 85 ∧
    (85 : ℚ) ≠ 0 ∧
    sampleUpstream.usdSgdOk = true ∧ sampleUpstream.usdSgdPrice = JsVal.num (27 / 20) ∧
    (27 / 20 : ℚ) ≠ 0 ∧
    (∃ rb rb' rs rs' : ℚ,
      getFxRateFromFioog sampleUpstream "USD" "BTN" = (Except.ok (JsVal.num rb), 1) ∧
      getFxRateFromFioog sampleUpstream "BTN" "USD" = (Except.ok (JsVal.num rb'), 1) ∧
      rb * rb' = 1 ∧
      getFxRateFromFioog sampleUpstream "USD" "SGD" = (Except.ok (JsVal.num rs), 1) ∧
      getFxRateFromFioog sampleUpstream "SGD" "USD" = (Except.ok (JsVal.num rs'), 1) ∧
      rs * rs' = 1) :=
  ⟨rfl, rfl, by norm_num, rfl, rfl, by norm_num,
    getFx_pivot_roundtrip sampleUpstream 85 (27 / 20) rfl rfl (by norm_num) rfl rfl
      (by norm_num)⟩

/-- C7: at principal 10 and marketValue 100 with the default constants, the
handler returns exactly commissionAmount 0.30, gstAmount 0.0891,
totalFixedFee 1.0791, net 8.6209, units 0.086209 and totalCharged 10.30. -/
theorem calc_example_values :
    computeFee (some 10) (some 100) = CalcResponse.ok
      { principal := 10, marketValue := 100, commissionRate := 0.03,
        commissionAmount := 0.30, platformFee := 0.99, gstAmount := 0.0891,
        totalFixedFee := 1.0791, amountForCrypto := 8.6209, coins := 0.086209,
        totalCharged := 10.30, minPrincipal := 10 } := by
  norm_num [computeFee, COMMISSION_RATE, PLATFORM_FEE, GST_RATE, MIN_PRINCIPAL]

/-- C8: a coin symbol whose upstream identifier is absent from the payload
is omitted entirely from the snapshot (it never appears, with any value),
while every symbol whose identifier is present still appears — the absence
does not fail the batch. -/
theorem coins_absent_symbol_omitted (raw : String → Option CoinData) (sym ident : String)
    (hmem : (sym, ident) ∈ COINS) (habs : raw ident = none) :
    (∀ d : CoinData, (sym, d) ∉ reshapeCoins raw) ∧
    (∀ s2 i2 d2, (s2, i2) ∈ COINS → raw i2 = some d2 → (s2, d2) ∈ reshapeCoins raw) := by
  constructor
  · intro d hd
    rw [reshapeCoins, List.mem_filterMap] at hd
    obtain ⟨p, hp, hfp⟩ := hd
    cases hraw : raw p.2 with
    | none => rw [hraw] at hfp; exact Option.noConfusion hfp
    | some dp =>
      rw [hraw] at hfp
      have hpair := Option.some.inj hfp
      have hsym : p.1 = sym := congrArg Prod.fst hpair
      have hid : p.2 = ident := COINS_symbol_unique p (sym, ident) hp hmem hsym
      rw [hid, habs] at hraw
      exact Option.noConfusion hraw
  · intro s2 i2 d2 hm hr
    rw [reshapeCoins, List.mem_filterMap]
    exact ⟨(s2, i2), hm, by simp [hr]⟩

/-- Witness for C8: "usdt" is in the table, "tether" is absent from the
sample payload, and the conclusion holds for that payload. -/
theorem coins_absent_symbol_omitted_witness :
    ("usdt", "tether") ∈ COINS ∧ sampleRaw "tether" = none ∧
    ((∀ d : CoinData, ("usdt", d) ∉ reshapeCoins sampleRaw) ∧
      (∀ s2 i2 d2, (s2, i2) ∈ COINS → sampleRaw i2 = some d2 →
        (s2, d2) ∈ reshapeCoins sampleRaw)) :=
  ⟨by decide, rfl, coins_absent_symbol_omitted sampleRaw "usdt" "tether" (by decide) rfl⟩

/-- C9: with the default constants, any input passing the numeric and
minimum-principal checks has net amount P − 0.03·P − 1.0791 > 0, so the
FeesExceedPrincipal branch is unreachable and the division always has a
positive numerator. -/
theorem feesExceedPrincipal_unreachable (P MV : ℚ) (hP : 0 < P) (hMV : 0 < MV)
    (hmin : MIN_PRINCIPAL ≤ P) :
    0 < P - P * COMMISSION_RATE - (PLATFORM_FEE + PLATFORM_FEE * GST_RATE) ∧
    computeFee (some P) (some MV) ≠
      CalcResponse.badRequest "Fees are higher than the principal. Increase the principal amount." := by
  have hnet := net_pos_of_min P hmin
  refine ⟨hnet, ?_⟩
  rw [computeFee_eq_ok P MV hP hMV hmin hnet]
  simp

/-- Witness for C9 at P = 10, M = 100. -/
theorem feesExceedPrincipal_unreachable_witness :
    (0 < (10 : ℚ)) ∧ (0 < (100 : ℚ)) ∧ MIN_PRINCIPAL ≤ (10 : ℚ) ∧
    (0 < (10 : ℚ) - 10 * COMMISSION_RATE - (PLATFORM_FEE + PLATFORM_FEE * GST_RATE) ∧
      computeFee (some 10) (some 100) ≠
        CalcResponse.badRequest
          "Fees are higher than the principal. Increase the principal amount.") :=
  ⟨by norm_num, by norm_num, by norm_num [MIN_PRINCIPAL],
    feesExceedPrincipal_unreachable 10 100 (by norm_num) (by norm_num)
      (by norm_num [MIN_PRINCIPAL])⟩

/-- C10 counterexample: for an unsupported pair the thrown error message
embeds the arguments in their original casing, so lower-case and
upper-case inputs do not produce the same result. -/
theorem getFx_case_counterexample :
    getFxRateFromFioog sampleUpstream "usd" "xxx" ≠
      getFxRateFromFioog sampleUpstream "USD" "XXX" := by
  have h1 : getFxRateFromFioog sampleUpstream "usd" "xxx" =
      (.error "FX pair usd/xxx not supported by FioogAPI", 0) := by
    rw [getFx_unsupported _ _ _ (by decide) (by decide) (by decide) (by decide)
      (by decide) (by decide)]
    rfl
  have h2 : getFxRateFromFioog sampleUpstream "USD" "XXX" =
      (.error "FX pair USD/XXX not supported by FioogAPI", 0) := by
    rw [getFx_unsupported _ _ _ (by decide) (by decide) (by decide) (by decide)
      (by decide) (by decide)]
    rfl
  intro hc
  rw [h1, h2] at hc
  have h3 := congrArg Prod.fst hc
  simp only [Except.error.injEq] at h3
  exact absurd h3 (by decide)

/-- C10 (amended): whenever the upper-cased pair admits a decomposition
(identity, pivot-direct, or cross), getFxRateFromFioog depends on its
arguments only through their upper-case forms; in particular "usd"/"sgd"
behaves identically to "USD"/"SGD".  Only the unsupported-pair error
message, which quotes the arguments verbatim, distinguishes casings. -/
theorem getFx_case_insensitive_on_supported (u : Upstream) (f1 t1 f2 t2 : String)
    (hf : upStr f1 = upStr f2) (ht : upStr t1 = upStr t2)
    (hs : supportedUpperPair (upStr f1) (upStr t1)) :
    getFxRateFromFioog u f1 t1 = getFxRateFromFioog u f2 t2 := by
  rcases hs with h | ⟨hF, hT⟩ | ⟨hF, hT⟩ | ⟨hF, hT⟩ | ⟨hF, hT⟩ | ⟨hF, hT⟩ | ⟨hF, hT⟩
  · rw [getFx_id u f1 t1 h, getFx_id u f2 t2 (by rw [← hf, ← ht]; exact h)]
  · rw [getFx_usd_btn u f1 t1 hF hT,
      getFx_usd_btn u f2 t2 (by rw [← hf]; exact hF) (by rw [← ht]; exact hT)]
  · rw [getFx_usd_sgd u f1 t1 hF hT,
      getFx_usd_sgd u f2 t2 (by rw [← hf]; exact hF) (by rw [← ht]; exact hT)]
  · rw [getFx_btn_usd u f1 t1 hF hT,
      getFx_btn_usd u f2 t2 (by rw [← hf]; exact hF) (by rw [← ht]; exact hT)]
  · rw [getFx_sgd_usd u f1 t1 hF hT,
      getFx_sgd_usd u f2 t2 (by rw [← hf]; exact hF) (by rw [← ht]; exact hT)]
  · rw [getFx_btn_sgd u f1 t1 hF hT,
      getFx_btn_sgd u f2 t2 (by rw [← hf]; exact hF) (by rw [← ht]; exact hT)]
  · rw [getFx_sgd_btn u f1 t1 hF hT,
      getFx_sgd_btn u f2 t2 (by rw [← hf]; exact hF) (by rw [← ht]; exact hT)]

/-- Witness for the amended C10: "usd"/"sgd" versus "USD"/"SGD". -/
theorem getFx_case_insensitive_witness :
    upStr "usd" = upStr "USD" ∧ upStr "sgd" = upStr "SGD" ∧
    supportedUpperPair (upStr "usd") (upStr "sgd") ∧
    getFxRateFromFioog sampleUpstream "usd" "sgd" =
      getFxRateFromFioog sampleUpstream "USD" "SGD" :=
  ⟨by decide, by decide, by decide,
    getFx_case_insensitive_on_supported sampleUpstream "usd" "sgd" "USD" "SGD"
      (by decide) (by decide) (by decide)⟩
